import Mathlib

/-!
Verification of the `SalesTrendAnalyzer` component
(`src/tools/SalesTrendAnalyzer.py`) against its natural-language
specification.

The Python code is shallowly embedded as executable Lean definitions:

* numeric sales values (SQL sums, float columns) are modelled as `ℚ`
  where every reachable value is finite, and as the extended type
  `EFloat` (finite / plus-infinity / minus-infinity / not-a-number)
  where pandas float division by zero matters (the AOV path);
* pandas data frames become a record holding the row list plus a flag
  recording whether the dimension columns were selected;
* the external data source (sqlite + pandas read) is modelled by
  explicit `Except`-valued inputs to the executor: the min/max date
  lookup result and a function from the bound parameter list to the
  query result;
* exceptions become `Except String`; the outer `analyze_trends`
  boundary converts them to a structured `AnalysisResult`.
-/

/-- Extended value type mirroring numpy/pandas double arithmetic on the
operations the analyzer uses: finite values are exact rationals, plus
`inf`, `negInf` and `nan`.  Division of a positive finite value by zero
yields `inf`, of a negative one `negInf`, and `0/0` yields `nan`,
matching numpy float division semantics. -/
inductive EFloat where
  | fin : ℚ → EFloat
  | inf : EFloat
  | negInf : EFloat
  | nan : EFloat
deriving DecidableEq, Repr

namespace EFloat

/-- Is the value NaN (used because pandas `mean` skips NaN entries). -/
def isNan : EFloat → Bool
  | nan => true
  | _ => false

/-- IEEE-style addition on the embedded values. -/
def add : EFloat → EFloat → EFloat
  | nan, _ => nan
  | _, nan => nan
  | inf, negInf => nan
  | negInf, inf => nan
  | inf, _ => inf
  | _, inf => inf
  | negInf, _ => negInf
  | _, negInf => negInf
  | fin a, fin b => fin (a + b)

/-- IEEE-style subtraction. -/
def sub : EFloat → EFloat → EFloat
  | nan, _ => nan
  | _, nan => nan
  | inf, inf => nan
  | negInf, negInf => nan
  | inf, _ => inf
  | negInf, _ => negInf
  | fin _, inf => negInf
  | fin _, negInf => inf
  | fin a, fin b => fin (a - b)

/-- IEEE-style multiplication (infinity times zero is NaN). -/
def mul : EFloat → EFloat → EFloat
  | nan, _ => nan
  | _, nan => nan
  | inf, inf => inf
  | inf, negInf => negInf
  | negInf, inf => negInf
  | negInf, negInf => inf
  | inf, fin b => if b = 0 then nan else if 0 < b then inf else negInf
  | fin a, inf => if a = 0 then nan else if 0 < a then inf else negInf
  | negInf, fin b => if b = 0 then nan else if 0 < b then negInf else inf
  | fin a, negInf => if a = 0 then nan else if 0 < a then negInf else inf
  | fin a, fin b => fin (a * b)

/-- IEEE-style division: numpy float division by zero produces a signed
infinity (or NaN for zero over zero) instead of raising. -/
def div : EFloat → EFloat → EFloat
  | nan, _ => nan
  | _, nan => nan
  | inf, inf => nan
  | inf, negInf => nan
  | negInf, inf => nan
  | negInf, negInf => nan
  | inf, fin b => if 0 ≤ b then inf else negInf
  | negInf, fin b => if 0 ≤ b then negInf else inf
  | fin _, inf => fin 0
  | fin _, negInf => fin 0
  | fin a, fin b =>
      if b = 0 then (if a = 0 then nan else if 0 < a then inf else negInf)
      else fin (a / b)

/-- Sum of a list of extended values (left fold starting at zero, the
shape of a pandas column sum). -/
def sumE (l : List EFloat) : EFloat := l.foldl add (fin 0)

/-- Pandas `Series.mean`: NaN entries are skipped; the mean of an empty
(or all-NaN) series is NaN. -/
def meanE (l : List EFloat) : EFloat :=
  let kept := l.filter (fun x => !x.isNan)
  if kept.length = 0 then nan else div (sumE kept) (fin (kept.length : ℚ))

/-- The Python comparison `value == 0` on a float: true exactly for the
finite value zero (NaN and the infinities compare unequal to zero). -/
def isZero : EFloat → Bool
  | fin q => q = 0
  | _ => false

end EFloat

/-- A value in the user-supplied filter map: Python scalars become one
bound parameter, lists/tuples become one parameter per element.
Parameter values are modelled as opaque strings. -/
inductive FilterValue where
  | scalar : String → FilterValue
  | coll : List String → FilterValue
deriving DecidableEq, Repr

/-- The validated analyzer state: the fields `__init__` stores after its
enumeration checks pass.  `metric` is stored lowercased.  The spec
constrains `top_n` and `trend_periods` to positive integers, so they are
carried as naturals.  The database path is not modelled: connections and
query execution appear as explicit `Except`-valued inputs instead. -/
structure Config where
  time_period : String
  metric : String
  dimension : Option String
  top_n : Nat
  filters : List (String × FilterValue)
  include_visualization : Bool
  trend_periods : Nat
deriving DecidableEq, Repr

/-- `VALID_TIME_PERIODS` from the source. -/
def VALID_TIME_PERIODS : List String :=
  ["daily", "weekly", "monthly", "quarterly", "annual"]

/-- `VALID_METRICS` from the source. -/
def VALID_METRICS : List String :=
  ["revenue", "units", "aov", "margin"]

/-- `VALID_DIMENSIONS` from the source; `none` stands for Python `None`. -/
def VALID_DIMENSIONS : List (Option String) :=
  [some "product", some "category", some "channel", some "region",
   some "customer", none]

/-- Python `str.lower` restricted to the ASCII range of the metric
enumeration: lowercases every character of the string (the metric names
involved are plain latin letters, where Python and `Char.toLower`
agree). -/
def pyLower (s : String) : String := ⟨s.data.map Char.toLower⟩

/-- `SalesTrendAnalyzer.__init__`: validates `time_period` exactly,
`metric` after lowercasing, and `dimension` exactly, raising `ValueError`
(modelled as `Except.error`) otherwise; on success stores the fields
with `metric` normalized to lowercase. -/
def init (time_period metric : String) (dimension : Option String)
    (top_n : Nat) (filters : List (String × FilterValue))
    (include_visualization : Bool) (trend_periods : Nat) :
    Except String Config :=
  if time_period ∈ VALID_TIME_PERIODS then
    if pyLower metric ∈ VALID_METRICS then
      if dimension ∈ VALID_DIMENSIONS then
        Except.ok
          { time_period := time_period
            metric := pyLower metric
            dimension := dimension
            top_n := top_n
            filters := filters
            include_visualization := include_visualization
            trend_periods := trend_periods }
      else Except.error "Invalid dimension. Must be one of the valid dimensions"
    else Except.error "Invalid metric. Must be one of the valid metrics"
  else Except.error "Invalid time period. Must be one of the valid time periods"

/-- `SalesTrendAnalyzer._calculate_growth` on a series of finite values
(the revenue / units / margin columns, which hold plain sums): returns
`0.0` for a series of fewer than two rows or a zero first value, else
`(last - first) / first * 100`. -/
def calculate_growth (series : List ℚ) : ℚ :=
  if series.length < 2 then 0
  else
    let first_value := series.headD 0
    let last_value := series.getLastD 0
    if first_value = 0 then 0
    else ((last_value - first_value) / first_value) * 100

/-- `SalesTrendAnalyzer._calculate_growth` at the extended-value carrier
used for the AOV series (whose entries can be infinities after a division
by zero).  Same control flow as `calculate_growth`: the Python float
comparison `first_value == 0` is `EFloat.isZero`. -/
def calculate_growthE (series : List EFloat) : EFloat :=
  if series.length < 2 then EFloat.fin 0
  else
    let first_value := series.headD (EFloat.fin 0)
    let last_value := series.getLastD (EFloat.fin 0)
    if first_value.isZero then EFloat.fin 0
    else EFloat.mul (EFloat.div (EFloat.sub last_value first_value) first_value)
      (EFloat.fin 100)

/-- C1: the growth helper returns the documented formula for a series of
at least two rows with nonzero first value, and exactly 0 otherwise
(single-row series included), with the example series evaluating to -10. -/
theorem C1_growth_formula (series : List ℚ) :
    (2 ≤ series.length → series.headD 0 ≠ 0 →
      calculate_growth series =
        ((series.getLastD 0 - series.headD 0) / series.headD 0) * 100)
    ∧ (series.length < 2 ∨ series.headD 0 = 0 → calculate_growth series = 0)
    ∧ (∀ x : ℚ, calculate_growth [x] = 0)
    ∧ calculate_growth [100, 150, 90] = -10 := by
  refine ⟨fun h2 hne => ?_, fun h => ?_, fun x => ?_, by norm_num [calculate_growth]⟩
  · rw [calculate_growth, if_neg (by omega), if_neg hne]
  · rcases h with h | h
    · rw [calculate_growth, if_pos h]
    · by_cases hlen : series.length < 2
      · rw [calculate_growth, if_pos hlen]
      · rw [calculate_growth, if_neg hlen, if_pos h]
  · rfl

/-- Witness for C1 at the example series of the spec. -/
theorem C1_growth_formula_witness :
    calculate_growth [100, 150, 90] = ((90 - 100) / 100) * 100 := by
  have h := (C1_growth_formula [100, 150, 90]).1 (by norm_num) (by norm_num)
  simpa using h

/-- C4 counterexample: for the series `[0, 5]` the last value exceeds the
first, yet the computed growth is 0, not strictly positive — the claimed
sign property fails when the first value is zero (the helper returns the
0.0 sentinel) and also flips for negative first values. -/
theorem C4_counterexample :
    ([0, 5] : List ℚ).headD 0 < ([0, 5] : List ℚ).getLastD 0 ∧
      calculate_growth [0, 5] = 0 := by
  constructor
  · norm_num
  · rw [calculate_growth]
    norm_num

/-- C4 amended: for a series of at least two rows whose first value is
strictly positive, the growth rate is strictly positive when the last
value exceeds the first and strictly negative when it is below it. -/
theorem C4_growth_sign (series : List ℚ) (h2 : 2 ≤ series.length)
    (hpos : 0 < series.headD 0) :
    (series.headD 0 < series.getLastD 0 → 0 < calculate_growth series)
    ∧ (series.getLastD 0 < series.headD 0 → calculate_growth series < 0) := by
  have hform := (C1_growth_formula series).1 h2 (ne_of_gt hpos)
  constructor
  · intro hlt
    rw [hform]
    have : 0 < (series.getLastD 0 - series.headD 0) / series.headD 0 :=
      div_pos (by linarith) hpos
    linarith
  · intro hlt
    rw [hform]
    have : (series.getLastD 0 - series.headD 0) / series.headD 0 < 0 :=
      div_neg_of_neg_of_pos (by linarith) hpos
    linarith

/-- Witness for C4 amended at the concrete series `[1, 2]`. -/
theorem C4_growth_sign_witness : 0 < calculate_growth [1, 2] := by
  have h := (C4_growth_sign [1, 2] (by norm_num) (by norm_num)).1
  exact h (by norm_num)

/-- C6: construction succeeds exactly when the time period is (exactly)
in its enumeration, the lowercased metric is in its enumeration, and the
dimension is (exactly) in its enumeration; on success nothing is coerced
except the documented lowercasing of the metric; `hourly` is rejected,
`Monthly` is rejected (time grain is exact-match), and an uppercase
metric is accepted (metric is case-insensitive). -/
theorem C6_construction_validation (tp m : String) (d : Option String)
    (n : Nat) (fs : List (String × FilterValue)) (iv : Bool) (trp : Nat) :
    ((init tp m d n fs iv trp).isOk = true ↔
      (tp ∈ VALID_TIME_PERIODS ∧ pyLower m ∈ VALID_METRICS ∧
        d ∈ VALID_DIMENSIONS))
    ∧ (∀ cfg, init tp m d n fs iv trp = Except.ok cfg →
        cfg.time_period = tp ∧ cfg.metric = pyLower m ∧ cfg.dimension = d)
    ∧ (init "hourly" "revenue" none 5 [] true 12).isOk = false
    ∧ (init "Monthly" "revenue" none 5 [] true 12).isOk = false
    ∧ (init "monthly" "REVENUE" none 5 [] true 12).isOk = true := by
  refine ⟨?_, fun cfg hok => ?_, by decide, by decide, by decide⟩
  · unfold init
    by_cases h1 : tp ∈ VALID_TIME_PERIODS
    · by_cases h2 : pyLower m ∈ VALID_METRICS
      · by_cases h3 : d ∈ VALID_DIMENSIONS
        · simp [h1, h2, h3, Except.isOk, Except.toBool]
        · simp [h1, h2, h3, Except.isOk, Except.toBool]
      · simp [h1, h2, Except.isOk, Except.toBool]
    · simp [h1, Except.isOk, Except.toBool]
  · unfold init at hok
    by_cases h1 : tp ∈ VALID_TIME_PERIODS
    · by_cases h2 : pyLower m ∈ VALID_METRICS
      · by_cases h3 : d ∈ VALID_DIMENSIONS
        · simp only [h1, h2, h3, if_true] at hok
          cases hok
          exact ⟨rfl, rfl, rfl⟩
        · simp [h1, h2, h3] at hok
      · simp [h1, h2] at hok
    · simp [h1] at hok

/-- Witness for C6 at a concrete valid construction. -/
theorem C6_construction_validation_witness :
    (init "monthly" "Revenue" (some "product") 5 [] true 12).isOk = true := by
  have h := (C6_construction_validation "monthly" "Revenue" (some "product")
    5 [] true 12).1
  exact h.mpr (by decide)

/-- The list of parameter values a single filter entry contributes:
a scalar contributes itself, a collection contributes its elements. -/
def filterValues : FilterValue → List String
  | FilterValue.scalar v => [v]
  | FilterValue.coll vs => vs

/-- The parameter list `analyze_trends` binds (lines 233-240): the two
date-range bounds first, then, when filters are present, every filter
value in the order the filter entries were declared. -/
def query_params (start_date end_date : String) (filters : List (String × FilterValue)) :
    List String :=
  [start_date, end_date] ++
    (if filters = [] then [] else (filters.map (fun p => filterValues p.2)).flatten)

/-- Python `','.join` of a list of strings (used by `_build_query` to
produce the placeholder list of a membership predicate). -/
def commaJoin : List String → String
  | [] => ""
  | [x] => x
  | x :: y :: rest => x ++ "," ++ commaJoin (y :: rest)

/-- The query fragment `_build_query` appends for one filter entry
(lines 180-187): an equality predicate with one placeholder for a scalar
value, a membership predicate with one placeholder per element for a
collection value, each prefixed by `AND`. -/
def filter_fragment (p : String × FilterValue) : String :=
  match p.2 with
  | FilterValue.scalar _ => " AND \"" ++ p.1 ++ "\" = ?"
  | FilterValue.coll vs =>
      " AND \"" ++ p.1 ++ "\" IN (" ++ commaJoin (vs.map (fun _ => "?")) ++ ")"

/-- The concatenation of all filter fragments, in declaration order
(the `query += ...` loop of lines 181-187). -/
def filter_clause : List (String × FilterValue) → String
  | [] => ""
  | p :: ps => filter_fragment p ++ filter_clause ps

/-- The fixed part of the WHERE clause from `_build_query` (lines
172-178), with the multi-line spacing of the Python source collapsed:
the date-range predicate with its two placeholders conjoined with the
not-deleted and not-excluded predicates. -/
def base_where : String :=
  "WHERE \"Txn Date\" BETWEEN ? AND ? AND \"Deleted Flag\" = 0 AND \"Excluded Flag\" = 0"

/-- The full WHERE clause of the built query: the fixed predicates
followed by the filter predicates, all conjoined by `AND`. -/
def where_clause (filters : List (String × FilterValue)) : String :=
  base_where ++ filter_clause filters

/-- Number of `?` placeholders in a query fragment. -/
def countQ (s : String) : Nat := s.data.countP (fun c => c = '?')

/-- countQ distributes over string append. -/
theorem countQ_append (a b : String) : countQ (a ++ b) = countQ a + countQ b := by
  simp [countQ, String.data_append]

/-- A string without a question mark contributes no placeholder. -/
theorem countQ_eq_zero (s : String) (h : ¬ '?' ∈ s.data) : countQ s = 0 := by
  rw [countQ, List.countP_eq_zero]
  intro a ha
  simp only [decide_eq_true_eq]
  intro hqa
  exact h (hqa ▸ ha)

/-- The `','.join` of one placeholder per element has exactly one
placeholder per element. -/
theorem countQ_commaJoin {α : Type} (l : List α) :
    countQ (commaJoin (l.map (fun _ => "?"))) = l.length := by
  induction l with
  | nil => rfl
  | cons x xs ih =>
    cases xs with
    | nil => rfl
    | cons y ys =>
      simp only [List.map_cons] at ih ⊢
      rw [commaJoin, countQ_append, countQ_append, ih]
      have h1 : countQ "?" = 1 := by decide
      have h2 : countQ "," = 0 := by decide
      simp only [h1, h2, List.length_cons]
      omega

/-- One filter entry contributes exactly one placeholder per bound
value: one for a scalar, one per element for a collection. -/
theorem countQ_fragment (p : String × FilterValue) (h : ¬ '?' ∈ p.1.data) :
    countQ (filter_fragment p) = (filterValues p.2).length := by
  match p with
  | (f, FilterValue.scalar v) =>
    simp only [filter_fragment, filterValues, countQ_append, List.length_cons,
      List.length_nil]
    have h0 : countQ f = 0 := countQ_eq_zero f h
    have h1 : countQ " AND \"" = 0 := by decide
    have h2 : countQ "\" = ?" = 1 := by decide
    omega
  | (f, FilterValue.coll vs) =>
    simp only [filter_fragment, filterValues, countQ_append]
    have h0 : countQ f = 0 := countQ_eq_zero f h
    have h1 : countQ " AND \"" = 0 := by decide
    have h2 : countQ "\" IN (" = 0 := by decide
    have h3 : countQ ")" = 0 := by decide
    have h4 := countQ_commaJoin vs
    omega

/-- The whole filter clause has one placeholder per declared filter
value. -/
theorem countQ_filter_clause (filters : List (String × FilterValue))
    (hf : ∀ p ∈ filters, ¬ '?' ∈ p.1.data) :
    countQ (filter_clause filters)
      = ((filters.map (fun p => filterValues p.2)).flatten).length := by
  induction filters with
  | nil => decide
  | cons p ps ih =>
    rw [filter_clause, countQ_append,
      countQ_fragment p (hf p (List.mem_cons_self p ps))]
    simp only [List.map_cons, List.flatten_cons, List.length_append]
    rw [ih (fun q hq => hf q (List.mem_cons_of_mem p hq))]

/-- C9: each scalar filter entry becomes an `AND`-prefixed equality
predicate with one placeholder, each collection entry an `AND`-prefixed
membership predicate with one placeholder per element; the WHERE clause
is the fixed date-range / not-deleted / not-excluded predicates followed
by the filter predicates; and the bound parameter list is the two
date-range bounds followed by the filter values in declaration order,
its length matching the number of placeholders in the WHERE clause. -/
theorem C9_filters_and_params (filters : List (String × FilterValue))
    (sd ed : String) (hf : ∀ p ∈ filters, ¬ '?' ∈ p.1.data) :
    query_params sd ed filters
        = [sd, ed] ++ (filters.map (fun p => filterValues p.2)).flatten
    ∧ (∀ f v, filter_fragment (f, FilterValue.scalar v)
        = " AND \"" ++ f ++ "\" = ?")
    ∧ (∀ f vs, filter_fragment (f, FilterValue.coll vs)
        = " AND \"" ++ f ++ "\" IN ("
            ++ commaJoin (vs.map (fun _ => "?")) ++ ")")
    ∧ where_clause filters = base_where ++ filter_clause filters
    ∧ countQ base_where = 2
    ∧ (∀ p ∈ filters, countQ (filter_fragment p) = (filterValues p.2).length)
    ∧ countQ (where_clause filters) = (query_params sd ed filters).length := by
  refine ⟨?_, fun f v => rfl, fun f vs => rfl, rfl, by decide,
    fun p hp => countQ_fragment p (hf p hp), ?_⟩
  · rw [query_params]
    cases filters with
    | nil => simp
    | cons p ps => simp
  · rw [where_clause, countQ_append, countQ_filter_clause filters hf]
    have h2 : countQ base_where = 2 := by decide
    rw [query_params]
    cases hempty : filters == [] with
    | _ =>
      by_cases hcase : filters = []
      · subst hcase
        simp [h2]
      · simp only [if_neg hcase, List.length_append, List.length_cons,
          List.length_nil]
        omega

/-- Witness for C9 at a concrete filter map with one scalar and one
two-element collection entry. -/
theorem C9_filters_and_params_witness :
    query_params "2024-01-01" "2024-12-31"
        [("Item Key", FilterValue.scalar "42"),
         ("Region", FilterValue.coll ["US", "EU"])]
      = ["2024-01-01", "2024-12-31", "42", "US", "EU"] := by
  have h := (C9_filters_and_params
    [("Item Key", FilterValue.scalar "42"),
     ("Region", FilterValue.coll ["US", "EU"])]
    "2024-01-01" "2024-12-31" (by decide)).1
  simpa using h

/-- One aggregated row of the executed query (`PeriodRow`): the period
bucket, summed revenue and units, distinct-order count, and (when a
dimension was requested) the dimension id and label columns. -/
structure Row where
  period : String
  revenue : ℚ
  units : ℚ
  orders : Nat
  dimension_id : String
  dimension_name : String
deriving DecidableEq, Repr

/-- The pandas frame returned by `pd.read_sql_query`: the ordered rows
plus a flag recording whether the two dimension columns were selected
(`dimension_id in data.columns`). -/
structure DataFrame where
  hasDimCols : Bool
  rows : List Row
deriving DecidableEq, Repr

/-- One entry of the top-performers list built by `_analyze_revenue`:
dimension id, dimension label, summed value, and percentage share. -/
structure Performer where
  id : String
  name : String
  value : ℚ
  share : ℚ
deriving DecidableEq, Repr

/-- The revenue payload (the `status` key of the Python dict is the
constant `success` and is omitted). -/
structure RevenuePayload where
  total_revenue : ℚ
  avg_daily_revenue : ℚ
  revenue_growth : ℚ
  top_performers : Option (List Performer)
deriving DecidableEq, Repr

/-- The volume payload. -/
structure VolumePayload where
  total_units : ℚ
  avg_daily_units : ℚ
  volume_growth : ℚ
  top_performers : Option (List Performer)
deriving DecidableEq, Repr

/-- The metric-specific analysis payload.  The AOV constructor carries
`avg_aov` and `aov_growth` at the extended carrier because the AOV
column can hold infinities after a division by zero.  The margin
analyzer never produces a payload: it reads a `cost` column the query
never selects, so it raises. -/
inductive Analysis where
  | revenue : RevenuePayload → Analysis
  | volume : VolumePayload → Analysis
  | aov : EFloat → EFloat → Analysis
deriving DecidableEq, Repr

/-- The grouping key of `_analyze_revenue`: the pair
`(dimension_id, dimension_name)`. -/
def rowKey (r : Row) : String × String := (r.dimension_id, r.dimension_name)

/-- The distinct keys of a list, first occurrence first (later
duplicates of the head are filtered out of the deduplicated tail). -/
def firstDedup : List (String × String) → List (String × String)
  | [] => []
  | k :: ks => k :: (firstDedup ks).filter (fun x => x ≠ k)

/-- Lexicographic comparison of character lists (the code-point order
Python and pandas use on strings). -/
def charListLt : List Char → List Char → Bool
  | [], [] => false
  | [], _ :: _ => true
  | _ :: _, [] => false
  | a :: as, b :: bs => if a < b then true else if a = b then charListLt as bs else false

/-- Code-point order on strings. -/
def strLt (a b : String) : Bool := charListLt a.data b.data

/-- Lexicographic order on grouping keys (pandas `groupby` sorts group
keys ascending by default). -/
def keyLt (a b : String × String) : Bool :=
  if strLt a.1 b.1 then true else if a.1 = b.1 then strLt a.2 b.2 else false

/-- Insert a key into an ascending-sorted key list. -/
def insertAscKey (x : String × String) :
    List (String × String) → List (String × String)
  | [] => [x]
  | y :: ys => if keyLt x y then x :: y :: ys else y :: insertAscKey x ys

/-- Sort keys ascending (insertion sort). -/
def sortKeys (l : List (String × String)) : List (String × String) :=
  l.foldl (fun acc x => insertAscKey x acc) []

/-- The summed revenue of the group with the given key. -/
def groupRevenue (rows : List Row) (k : String × String) : ℚ :=
  ((rows.filter (fun r => rowKey r = k)).map Row.revenue).sum

/-- `data.groupby([dimension_id, dimension_name])[revenue].sum()`: one
entry per distinct key, keys ascending, each with its summed revenue. -/
def dimension_totals (rows : List Row) : List ((String × String) × ℚ) :=
  (sortKeys (firstDedup (rows.map rowKey))).map (fun k => (k, groupRevenue rows k))

/-- Insert an entry into a value-descending list, after all entries with
a value at least as large (the keep-first tie policy of pandas
`nlargest`). -/
def insertDescVal {K : Type} (x : K × ℚ) : List (K × ℚ) → List (K × ℚ)
  | [] => [x]
  | y :: ys => if y.2 < x.2 then x :: y :: ys else y :: insertDescVal x ys

/-- Stable sort by value, descending. -/
def sortDescVal {K : Type} (l : List (K × ℚ)) : List (K × ℚ) :=
  l.foldl (fun acc x => insertDescVal x acc) []

/-- Pandas `Series.nlargest(n)`: the n largest entries, value
descending, earlier entries kept first on ties. -/
def nlargest {K : Type} (n : Nat) (l : List (K × ℚ)) : List (K × ℚ) :=
  (sortDescVal l).take n

/-- `SalesTrendAnalyzer._analyze_revenue`: total, per-period mean and
growth of the revenue column; the top-performers list is computed only
when a dimension was requested and the dimension columns are present,
otherwise it is `None`. -/
def analyze_revenue (cfg : Config) (data : DataFrame) : Except String Analysis :=
  let total_revenue := (data.rows.map Row.revenue).sum
  let avg_daily_revenue := (data.rows.map Row.revenue).sum / (data.rows.length : ℚ)
  let revenue_growth := calculate_growth (data.rows.map Row.revenue)
  let top_performers : Option (List Performer) :=
    if cfg.dimension.isSome && data.hasDimCols then
      some ((nlargest cfg.top_n (dimension_totals data.rows)).map
        (fun kv =>
          { id := kv.1.1
            name := kv.1.2
            value := kv.2
            share := kv.2 / total_revenue * 100 }))
    else none
  Except.ok (Analysis.revenue
    { total_revenue := total_revenue
      avg_daily_revenue := avg_daily_revenue
      revenue_growth := revenue_growth
      top_performers := top_performers })

/-- `SalesTrendAnalyzer._get_top_performers`: for the `product` and
`region` dimensions it groups by the hardcoded columns `Item ID` and
`Region ID` — columns `_build_query` never selects, so the pandas
`groupby` raises a `KeyError` (modelled as the error value); for every
other dimension it returns an empty list before touching the rows. -/
def get_top_performers (cfg : Config) (data : DataFrame) (metric : String) :
    Except String (List Performer) :=
  if cfg.dimension = some "product" then Except.error "KeyError: Item ID"
  else if cfg.dimension = some "region" then Except.error "KeyError: Region ID"
  else Except.ok []

/-- `SalesTrendAnalyzer._analyze_volume`: total, per-period mean and
growth of the units column; the top-performers field stays `None` when
no dimension was requested, otherwise it is the result of
`_get_top_performers`. -/
def analyze_volume (cfg : Config) (data : DataFrame) : Except String Analysis :=
  let total_units := (data.rows.map Row.units).sum
  let avg_daily_units := (data.rows.map Row.units).sum / (data.rows.length : ℚ)
  let volume_growth := calculate_growth (data.rows.map Row.units)
  if cfg.dimension.isSome then
    match get_top_performers cfg data "units" with
    | Except.error m => Except.error m
    | Except.ok tp =>
        Except.ok (Analysis.volume
          { total_units := total_units
            avg_daily_units := avg_daily_units
            volume_growth := volume_growth
            top_performers := some tp })
  else
    Except.ok (Analysis.volume
      { total_units := total_units
        avg_daily_units := avg_daily_units
        volume_growth := volume_growth
        top_performers := none })

/-- `SalesTrendAnalyzer._analyze_aov`: the per-row AOV column is the
unguarded float division `revenue / orders`, then its NaN-skipping mean
and its growth. -/
def analyze_aov (data : DataFrame) : Analysis :=
  let aov := data.rows.map
    (fun r => EFloat.div (EFloat.fin r.revenue) (EFloat.fin (r.orders : ℚ)))
  Analysis.aov (EFloat.meanE aov) (calculate_growthE aov)

/-- `SalesTrendAnalyzer._analyze_margin`: reads `data[cost]`, a column
`_build_query` never selects, so the row access raises a `KeyError`
which the analyzer logs and re-raises. -/
def analyze_margin (_cfg : Config) (_data : DataFrame) : Except String Analysis :=
  Except.error "KeyError: cost"

/-- `SalesTrendAnalyzer._create_trend_visualization`: plots
`trend_data[sales]` (and `seasonal`, `trend`, `residual`), columns the
aggregation query never produces, so the first column access raises a
`KeyError` which the except block logs and re-raises. -/
def create_trend_visualization (_data : DataFrame) : Except String Unit :=
  Except.error "KeyError: sales"

/-- The metric dispatch of `analyze_trends` (lines 253-260): revenue,
units, aov, and margin as the final else branch. -/
def dispatch (cfg : Config) (data : DataFrame) : Except String Analysis :=
  if cfg.metric = "revenue" then analyze_revenue cfg data
  else if cfg.metric = "units" then analyze_volume cfg data
  else if cfg.metric = "aov" then Except.ok (analyze_aov data)
  else analyze_margin cfg data

/-- The structured result `analyze_trends` always returns: a success
carrying the metric payload and the resolved start and end dates, or an
error carrying a message only. -/
inductive AnalysisResult where
  | success : Analysis → String → String → AnalysisResult
  | error : String → AnalysisResult
deriving DecidableEq, Repr

/-- The date-defaulting of lines 224-227: `if not start_date` replaces a
missing or empty (Python-falsy) date by the looked-up bound. -/
def resolve (explicit : Option String) (fallback : String) : String :=
  match explicit with
  | none => fallback
  | some s => if s.isEmpty then fallback else s

/-- `SalesTrendAnalyzer.analyze_trends`: the executor boundary.  The two
external effects are inputs: `date_range` is the outcome of the
unconditional `get_available_date_range()` call, and `exec_query` maps
the bound parameter list to the outcome of the aggregation query (a
connection failure or execution fault is an error value).  Every
exception of the Python body is an `Except.error` here and is converted
into a structured error result; an empty row set yields the dedicated
error message before any analyzer runs. -/
def analyze_trends (cfg : Config) (start_date end_date : Option String)
    (date_range : Except String (String × String))
    (exec_query : List String → Except String DataFrame) : AnalysisResult :=
  match date_range with
  | Except.error m => AnalysisResult.error m
  | Except.ok (min_date, max_date) =>
    match exec_query (query_params (resolve start_date min_date)
        (resolve end_date max_date) cfg.filters) with
    | Except.error m => AnalysisResult.error m
    | Except.ok data =>
      if data.rows.isEmpty then
        AnalysisResult.error "No data found for the specified period"
      else
        match dispatch cfg data with
        | Except.error m => AnalysisResult.error m
        | Except.ok analysis =>
          if cfg.include_visualization then
            match create_trend_visualization data with
            | Except.error m => AnalysisResult.error m
            | Except.ok _ =>
              AnalysisResult.success analysis (resolve start_date min_date)
                (resolve end_date max_date)
          else
            AnalysisResult.success analysis (resolve start_date min_date)
              (resolve end_date max_date)

/-- Inversion of a successful analysis: every step of the pipeline
succeeded, the payload is the analyzer output, and the carried dates are
the resolved ones.  Shared helper. -/
theorem analyze_trends_success_inversion (cfg : Config) (sd ed : Option String)
    (dr : Except String (String × String))
    (exec_query : List String → Except String DataFrame)
    (a : Analysis) (st en : String)
    (h : analyze_trends cfg sd ed dr exec_query = AnalysisResult.success a st en) :
    ∃ mn mx df, dr = Except.ok (mn, mx) ∧ st = resolve sd mn ∧ en = resolve ed mx
      ∧ exec_query (query_params st en cfg.filters) = Except.ok df
      ∧ df.rows ≠ [] ∧ dispatch cfg df = Except.ok a
      ∧ (cfg.include_visualization = true →
          create_trend_visualization df = Except.ok ()) := by
  cases dr with
  | error m => simp [analyze_trends] at h
  | ok b =>
    obtain ⟨mn, mx⟩ := b
    refine ⟨mn, mx, ?_⟩
    rw [analyze_trends] at h
    cases hex : exec_query (query_params (resolve sd mn) (resolve ed mx) cfg.filters) with
    | error m => rw [hex] at h; simp at h
    | ok df =>
      rw [hex] at h
      dsimp only at h
      by_cases hrows : df.rows.isEmpty
      · simp [hrows] at h
      · rw [if_neg hrows] at h
        cases hdisp : dispatch cfg df with
        | error m => rw [hdisp] at h; simp at h
        | ok a2 =>
          rw [hdisp] at h
          dsimp only at h
          by_cases hviz : cfg.include_visualization
          · rw [if_pos hviz] at h
            simp [create_trend_visualization] at h
          · rw [if_neg hviz] at h
            cases h
            refine ⟨df, rfl, rfl, rfl, hex, ?_, hdisp, ?_⟩
            · intro hnil
              rw [hnil] at hrows
              exact hrows rfl
            · intro hvt
              exact absurd hvt hviz

/-- C3: whenever the executed aggregation query returns an empty row
set, `analyze_trends` returns an error result with the exact message
`No data found for the specified period`, never an empty-but-successful
analysis. -/
theorem C3_empty_rows_error (cfg : Config) (sd ed : Option String)
    (mn mx : String) (exec_query : List String → Except String DataFrame)
    (df : DataFrame)
    (hq : exec_query (query_params (resolve sd mn) (resolve ed mx) cfg.filters)
      = Except.ok df)
    (hempty : df.rows = []) :
    analyze_trends cfg sd ed (Except.ok (mn, mx)) exec_query
      = AnalysisResult.error "No data found for the specified period" := by
  rw [analyze_trends, hq]
  dsimp only
  rw [if_pos (by rw [hempty]; rfl)]

/-- Witness for C3 at a concrete empty query result. -/
theorem C3_empty_rows_error_witness :
    analyze_trends ⟨"monthly", "revenue", none, 5, [], true, 12⟩ none none
        (Except.ok ("2024-01-01", "2024-12-31"))
        (fun _ => Except.ok ⟨false, []⟩)
      = AnalysisResult.error "No data found for the specified period" :=
  C3_empty_rows_error ⟨"monthly", "revenue", none, 5, [], true, 12⟩ none none
    "2024-01-01" "2024-12-31" (fun _ => Except.ok ⟨false, []⟩) ⟨false, []⟩
    rfl rfl

/-- C7 counterexample: even with both start and end supplied explicitly,
the analysis performs the min/max date lookup and fails when that lookup
fails — with the same explicit dates and the same query result, a failed
lookup yields an error while a successful lookup yields a success whose
date range is the supplied dates (the looked-up bounds are unused). -/
theorem C7_counterexample :
    analyze_trends ⟨"monthly", "revenue", none, 5, [], false, 12⟩
        (some "2024-01-01") (some "2024-12-31")
        (Except.error "No data available in the database")
        (fun _ => Except.ok ⟨false, [⟨"2024-01", 100, 1, 1, "", ""⟩]⟩)
      = AnalysisResult.error "No data available in the database"
    ∧ analyze_trends ⟨"monthly", "revenue", none, 5, [], false, 12⟩
        (some "2024-01-01") (some "2024-12-31")
        (Except.ok ("2020-01-01", "2020-12-31"))
        (fun _ => Except.ok ⟨false, [⟨"2024-01", 100, 1, 1, "", ""⟩]⟩)
      = AnalysisResult.success (Analysis.revenue ⟨100, 100, 0, none⟩)
          "2024-01-01" "2024-12-31" := by
  constructor
  · rfl
  · simp only [analyze_trends, resolve, dispatch, analyze_revenue]
    norm_num [calculate_growth, dimension_totals]
    constructor
    · intro h
      exact absurd h (by decide)
    · intro h
      exact absurd h (by decide)

/-- C7 amended: the date-bounds lookup is performed on every call, so
its failure fails the analysis even when both dates are supplied; when
it succeeds and both dates are supplied (non-empty), the values of the
looked-up bounds do not affect the result. -/
theorem C7_lookup_unconditional (cfg : Config) (s e : String)
    (hs : s.isEmpty = false) (he : e.isEmpty = false) (m : String)
    (b1 b2 : String × String)
    (exec_query : List String → Except String DataFrame) :
    analyze_trends cfg (some s) (some e) (Except.error m) exec_query
      = AnalysisResult.error m
    ∧ analyze_trends cfg (some s) (some e) (Except.ok b1) exec_query
      = analyze_trends cfg (some s) (some e) (Except.ok b2) exec_query := by
  constructor
  · rfl
  · obtain ⟨mn1, mx1⟩ := b1
    obtain ⟨mn2, mx2⟩ := b2
    simp [analyze_trends, resolve, hs, he]

/-- Witness for C7 amended at concrete explicit dates and two distinct
lookup results. -/
theorem C7_lookup_unconditional_witness :
    analyze_trends ⟨"monthly", "revenue", none, 5, [], false, 12⟩
        (some "2024-01-01") (some "2024-12-31")
        (Except.error "db down") (fun _ => Except.ok ⟨false, []⟩)
      = AnalysisResult.error "db down"
    ∧ analyze_trends ⟨"monthly", "revenue", none, 5, [], false, 12⟩
        (some "2024-01-01") (some "2024-12-31")
        (Except.ok ("a", "b")) (fun _ => Except.ok ⟨false, []⟩)
      = analyze_trends ⟨"monthly", "revenue", none, 5, [], false, 12⟩
        (some "2024-01-01") (some "2024-12-31")
        (Except.ok ("c", "d")) (fun _ => Except.ok ⟨false, []⟩) :=
  C7_lookup_unconditional ⟨"monthly", "revenue", none, 5, [], false, 12⟩
    "2024-01-01" "2024-12-31" rfl rfl "db down" ("a", "b") ("c", "d")
    (fun _ => Except.ok ⟨false, []⟩)

/-- C2: the AOV analyzer does not guard the division by zero orders.
On a single aggregated row with revenue 100 and orders 0 the pandas
float division yields plus-infinity, the mean AOV is plus-infinity, and
`analyze_trends` (visualization off) returns it inside a success result:
an infinity silently reaching the caller, not the documented sentinel 0
nor an excluded row. -/
theorem C2_aov_unguarded_division :
    analyze_aov ⟨false, [⟨"2024-01", 100, 10, 0, "", ""⟩]⟩
      = Analysis.aov EFloat.inf (EFloat.fin 0)
    ∧ analyze_trends ⟨"monthly", "aov", none, 5, [], false, 12⟩ none none
        (Except.ok ("2024-01-01", "2024-12-31"))
        (fun _ => Except.ok ⟨false, [⟨"2024-01", 100, 10, 0, "", ""⟩]⟩)
      = AnalysisResult.success (Analysis.aov EFloat.inf (EFloat.fin 0))
          "2024-01-01" "2024-12-31"
    ∧ EFloat.inf ≠ EFloat.fin 0 := by
  refine ⟨by decide, by decide, by decide⟩

/-- C10: on a successful revenue or units analysis with no dimension
requested, the payload's top-performers field is `None`, not an empty
list; and for a units analysis whose dimension is not `product` or
`region`, the top-performers helper returns an empty list without
consulting the row data (its result is the same for any two frames). -/
theorem C10_top_performers_defaults (cfg : Config) (sd ed : Option String)
    (dr : Except String (String × String))
    (exec_query : List String → Except String DataFrame)
    (a : Analysis) (st en : String)
    (hdim : cfg.dimension = none)
    (hsucc : analyze_trends cfg sd ed dr exec_query
      = AnalysisResult.success a st en) :
    (cfg.metric = "revenue" →
      ∃ pay, a = Analysis.revenue pay ∧ pay.top_performers = none)
    ∧ (cfg.metric = "units" →
      ∃ pay, a = Analysis.volume pay ∧ pay.top_performers = none)
    ∧ (∀ (cfg2 : Config) (d : String), d ∈ ["category", "channel", "customer"] →
        cfg2.dimension = some d →
        ∀ (data data2 : DataFrame) (metric : String),
          get_top_performers cfg2 data metric = Except.ok []
          ∧ get_top_performers cfg2 data metric
              = get_top_performers cfg2 data2 metric) := by
  obtain ⟨mn, mx, df, hdr, hst, hen, hex, hne, hdisp, hviz⟩ :=
    analyze_trends_success_inversion cfg sd ed dr exec_query a st en hsucc
  refine ⟨fun hmet => ?_, fun hmet => ?_, fun cfg2 d hd hdim2 data data2 metric => ?_⟩
  · rw [dispatch, if_pos hmet, analyze_revenue] at hdisp
    cases hdisp
    exact ⟨_, rfl, by simp [hdim]⟩
  · have hmet2 : ¬ cfg.metric = "revenue" := by
      rw [hmet]; decide
    rw [dispatch, if_neg hmet2, if_pos hmet, analyze_volume] at hdisp
    rw [hdim] at hdisp
    simp only [Option.isSome_none, Bool.false_eq_true, if_false] at hdisp
    cases hdisp
    exact ⟨_, rfl, rfl⟩
  · have h1 : ¬ cfg2.dimension = some "product" := by
      rw [hdim2]
      fin_cases hd <;> decide
    have h2 : ¬ cfg2.dimension = some "region" := by
      rw [hdim2]
      fin_cases hd <;> decide
    rw [get_top_performers, if_neg h1, if_neg h2,
      get_top_performers, if_neg h1, if_neg h2]
    exact ⟨rfl, rfl⟩

/-- Witness for C10 at a concrete successful revenue analysis without a
dimension. -/
theorem C10_top_performers_defaults_witness :
    ∃ pay, Analysis.revenue ⟨100, 100, 0, none⟩ = Analysis.revenue pay
      ∧ pay.top_performers = none := by
  have h := (C10_top_performers_defaults
    ⟨"monthly", "revenue", none, 5, [], false, 12⟩ none none
    (Except.ok ("2024-01-01", "2024-12-31"))
    (fun _ => Except.ok ⟨false, [⟨"2024-01", 100, 1, 1, "", ""⟩]⟩)
    (Analysis.revenue ⟨100, 100, 0, none⟩) "2024-01-01" "2024-12-31"
    rfl ?_).1 rfl
  · exact h
  · simp only [analyze_trends, resolve, dispatch, analyze_revenue]
    norm_num [calculate_growth, dimension_totals]

/-- C8: the executor boundary always returns a structured result —
success or error — and converts every fault of any pipeline step
(date-range lookup, query execution, metric analysis, visualization)
into an error result carrying the message; a success result implies
every step succeeded and carries the analyzer payload together with the
resolved date range. -/
theorem C8_structured_boundary (cfg : Config) (sd ed : Option String)
    (dr : Except String (String × String))
    (exec_query : List String → Except String DataFrame) :
    ((∃ m, analyze_trends cfg sd ed dr exec_query = AnalysisResult.error m)
      ∨ (∃ a st en, analyze_trends cfg sd ed dr exec_query
          = AnalysisResult.success a st en))
    ∧ (∀ m, dr = Except.error m →
        analyze_trends cfg sd ed dr exec_query = AnalysisResult.error m)
    ∧ (∀ mn mx m, dr = Except.ok (mn, mx) →
        exec_query (query_params (resolve sd mn) (resolve ed mx) cfg.filters)
          = Except.error m →
        analyze_trends cfg sd ed dr exec_query = AnalysisResult.error m)
    ∧ (∀ mn mx df m, dr = Except.ok (mn, mx) →
        exec_query (query_params (resolve sd mn) (resolve ed mx) cfg.filters)
          = Except.ok df →
        df.rows.isEmpty = false → dispatch cfg df = Except.error m →
        analyze_trends cfg sd ed dr exec_query = AnalysisResult.error m)
    ∧ (∀ mn mx df a, dr = Except.ok (mn, mx) →
        exec_query (query_params (resolve sd mn) (resolve ed mx) cfg.filters)
          = Except.ok df →
        df.rows.isEmpty = false → dispatch cfg df = Except.ok a →
        cfg.include_visualization = true →
        analyze_trends cfg sd ed dr exec_query
          = AnalysisResult.error "KeyError: sales")
    ∧ (∀ a st en, analyze_trends cfg sd ed dr exec_query
          = AnalysisResult.success a st en →
        ∃ mn mx df, dr = Except.ok (mn, mx) ∧ st = resolve sd mn
          ∧ en = resolve ed mx
          ∧ exec_query (query_params st en cfg.filters) = Except.ok df
          ∧ df.rows ≠ [] ∧ dispatch cfg df = Except.ok a
          ∧ (cfg.include_visualization = true →
              create_trend_visualization df = Except.ok ())) := by
  refine ⟨?_, fun m hdr => ?_, fun mn mx m hdr hex => ?_,
    fun mn mx df m hdr hex hne hdisp => ?_,
    fun mn mx df a hdr hex hne hdisp hviz => ?_,
    fun a st en h =>
      analyze_trends_success_inversion cfg sd ed dr exec_query a st en h⟩
  · cases h : analyze_trends cfg sd ed dr exec_query with
    | success a st en => exact Or.inr ⟨a, st, en, rfl⟩
    | error m => exact Or.inl ⟨m, rfl⟩
  · rw [hdr]
    rfl
  · rw [hdr, analyze_trends, hex]
  · rw [hdr, analyze_trends, hex]
    dsimp only
    rw [if_neg (by rw [hne]; exact Bool.false_ne_true), hdisp]
  · rw [hdr, analyze_trends, hex]
    dsimp only
    rw [if_neg (by rw [hne]; exact Bool.false_ne_true), hdisp]
    dsimp only
    rw [if_pos hviz]
    rfl

/-- Witness for C8 at a concrete failed date-range lookup. -/
theorem C8_structured_boundary_witness :
    analyze_trends ⟨"monthly", "revenue", none, 5, [], true, 12⟩ none none
        (Except.error "unable to open database file")
        (fun _ => Except.ok ⟨false, []⟩)
      = AnalysisResult.error "unable to open database file" :=
  (C8_structured_boundary ⟨"monthly", "revenue", none, 5, [], true, 12⟩
    none none (Except.error "unable to open database file")
    (fun _ => Except.ok ⟨false, []⟩)).2.1
    "unable to open database file" rfl

/-- Inserting into a list is a permutation of consing. -/
theorem insertDescVal_perm {K : Type} (x : K × ℚ) (l : List (K × ℚ)) :
    List.Perm (insertDescVal x l) (x :: l) := by
  induction l with
  | nil => exact List.Perm.refl _
  | cons y ys ih =>
    rw [insertDescVal]
    by_cases h : y.2 < x.2
    · rw [if_pos h]
    · rw [if_neg h]
      exact (ih.cons y).trans (List.Perm.swap x y ys)

/-- A fold of inserts is a permutation of the accumulator followed by
the input. -/
theorem foldl_ins_perm {α : Type} (ins : α → List α → List α)
    (hins : ∀ x l, List.Perm (ins x l) (x :: l)) :
    ∀ (l acc : List α),
      List.Perm (l.foldl (fun a x => ins x a) acc) (acc ++ l) := by
  intro l
  induction l with
  | nil => intro acc; simp
  | cons x xs ih =>
    intro acc
    have h1 := ih (ins x acc)
    have h2 : List.Perm (ins x acc ++ xs) ((x :: acc) ++ xs) :=
      (hins x acc).append_right xs
    have h3 : List.Perm ((x :: acc) ++ xs) (acc ++ x :: xs) := by
      simpa using List.perm_middle.symm
    exact (h1.trans h2).trans h3

/-- The descending value sort permutes its input. -/
theorem sortDescVal_perm {K : Type} (l : List (K × ℚ)) :
    List.Perm (sortDescVal l) l := by
  have h := foldl_ins_perm insertDescVal insertDescVal_perm l []
  simpa [sortDescVal] using h

/-- Inserting preserves value-descending sortedness. -/
theorem insertDescVal_sorted {K : Type} (x : K × ℚ) (l : List (K × ℚ))
    (hl : l.Pairwise (fun a b => b.2 ≤ a.2)) :
    (insertDescVal x l).Pairwise (fun a b => b.2 ≤ a.2) := by
  induction l with
  | nil => simp [insertDescVal]
  | cons y ys ih =>
    rcases List.pairwise_cons.mp hl with ⟨hy, hys⟩
    rw [insertDescVal]
    by_cases h : y.2 < x.2
    · rw [if_pos h]
      refine List.pairwise_cons.mpr ⟨?_, hl⟩
      intro b hb
      rcases List.mem_cons.mp hb with rfl | hb2
      · exact le_of_lt h
      · exact (hy b hb2).trans (le_of_lt h)
    · rw [if_neg h]
      refine List.pairwise_cons.mpr ⟨?_, ih hys⟩
      intro b hb
      rcases List.mem_cons.mp ((insertDescVal_perm x ys).mem_iff.mp hb) with rfl | hb2
      · exact le_of_not_lt h
      · exact hy b hb2

/-- The descending value sort is sorted (value descending). -/
theorem sortDescVal_sorted {K : Type} (l : List (K × ℚ)) :
    (sortDescVal l).Pairwise (fun a b => b.2 ≤ a.2) := by
  rw [sortDescVal]
  have h : ∀ (l2 acc : List (K × ℚ)),
      acc.Pairwise (fun a b => b.2 ≤ a.2) →
      (l2.foldl (fun a x => insertDescVal x a) acc).Pairwise
        (fun a b => b.2 ≤ a.2) := by
    intro l2
    induction l2 with
    | nil => intro acc hacc; exact hacc
    | cons x xs ih => intro acc hacc; exact ih _ (insertDescVal_sorted x acc hacc)
  exact h l [] (by simp)

/-- Inserting a key is a permutation of consing. -/
theorem insertAscKey_perm (x : String × String) (l : List (String × String)) :
    List.Perm (insertAscKey x l) (x :: l) := by
  induction l with
  | nil => exact List.Perm.refl _
  | cons y ys ih =>
    rw [insertAscKey]
    by_cases h : keyLt x y
    · rw [if_pos h]
    · rw [if_neg h]
      exact (ih.cons y).trans (List.Perm.swap x y ys)

/-- The key sort permutes its input. -/
theorem sortKeys_perm (l : List (String × String)) :
    List.Perm (sortKeys l) l := by
  have h := foldl_ins_perm insertAscKey insertAscKey_perm l []
  simpa [sortKeys] using h

/-- Every element of the deduplicated list occurs in the input. -/
theorem firstDedup_subset :
    ∀ (l : List (String × String)) (a : String × String),
      a ∈ firstDedup l → a ∈ l := by
  intro l
  induction l with
  | nil => intro a ha; simp [firstDedup] at ha
  | cons k ks ih =>
    intro a ha
    rw [firstDedup] at ha
    rcases List.mem_cons.mp ha with rfl | ha2
    · exact List.mem_cons_self _ _
    · exact List.mem_cons_of_mem k (ih a (List.mem_of_mem_filter ha2))

/-- Every element of the input occurs in the deduplicated list. -/
theorem firstDedup_complete :
    ∀ (l : List (String × String)) (a : String × String),
      a ∈ l → a ∈ firstDedup l := by
  intro l
  induction l with
  | nil => intro a ha; exact absurd ha (List.not_mem_nil a)
  | cons k ks ih =>
    intro a ha
    rw [firstDedup]
    by_cases hak : a = k
    · exact hak ▸ List.mem_cons_self _ _
    · rcases List.mem_cons.mp ha with rfl | ha2
      · exact absurd rfl hak
      · refine List.mem_cons_of_mem k ?_
        rw [List.mem_filter]
        exact ⟨ih a ha2, by simpa using hak⟩

/-- The deduplicated key list has no duplicates. -/
theorem firstDedup_nodup : ∀ (l : List (String × String)), (firstDedup l).Nodup := by
  intro l
  induction l with
  | nil => rw [firstDedup]; exact List.nodup_nil
  | cons k ks ih =>
    rw [firstDedup]
    refine List.nodup_cons.mpr ⟨?_, ih.filter _⟩
    intro hmem
    rw [List.mem_filter] at hmem
    simpa using hmem.2

/-- Splitting a revenue sum along a predicate. -/
theorem sum_filter_split (rows : List Row) (p : Row → Bool) :
    ((rows.filter p).map Row.revenue).sum
      + ((rows.filter (fun r => !(p r))).map Row.revenue).sum
      = (rows.map Row.revenue).sum := by
  induction rows with
  | nil => simp
  | cons r rs ih =>
    by_cases hp : p r
    · simp only [List.filter_cons, hp, Bool.not_true, List.map_cons,
        List.sum_cons, if_true, Bool.false_eq_true, if_false]
      linarith
    · simp only [List.filter_cons, hp, Bool.not_false, List.map_cons,
        List.sum_cons, if_true, Bool.false_eq_true, if_false]
      linarith

/-- Group sums over a duplicate-free key list covering the rows add up
to the total revenue: the groups partition the rows. -/
theorem groupRevenue_partition :
    ∀ (K : List (String × String)) (rows : List Row), K.Nodup →
      (∀ r ∈ rows, rowKey r ∈ K) →
      (K.map (groupRevenue rows)).sum = (rows.map Row.revenue).sum := by
  intro K
  induction K with
  | nil =>
    intro rows _ hall
    cases rows with
    | nil => simp
    | cons r rs => exact absurd (hall r (List.mem_cons_self r rs)) (List.not_mem_nil _)
  | cons k K ih =>
    intro rows hnd hall
    have hknotin : k ∉ K := (List.nodup_cons.mp hnd).1
    have hndK : K.Nodup := (List.nodup_cons.mp hnd).2
    have hrows2 : ∀ r ∈ rows.filter (fun r => !(decide (rowKey r = k))),
        rowKey r ∈ K := by
      intro r hr
      rcases List.mem_filter.mp hr with ⟨hrmem, hrk⟩
      rcases List.mem_cons.mp (hall r hrmem) with heq | hmem
      · rw [heq] at hrk; simp at hrk
      · exact hmem
    have hcongr : K.map (groupRevenue rows)
        = K.map (groupRevenue (rows.filter (fun r => !(decide (rowKey r = k))))) := by
      refine List.map_congr_left ?_
      intro k2 hk2
      have hk2ne : k2 ≠ k := fun heq => hknotin (heq ▸ hk2)
      have hfeq : rows.filter (fun a => decide (rowKey a = k2) && !(decide (rowKey a = k)))
          = rows.filter (fun r => decide (rowKey r = k2)) := by
        refine List.filter_congr ?_
        intro r _
        by_cases hr : rowKey r = k2
        · have hner : ¬ rowKey r = k := fun heq => hk2ne (by rw [← hr, heq])
          simp [hr, hner, hk2ne]
        · simp [hr]
      rw [groupRevenue, groupRevenue, List.filter_filter, hfeq]
    have hsplit := sum_filter_split rows (fun r => decide (rowKey r = k))
    have hgr : groupRevenue rows k
        = ((rows.filter (fun r => decide (rowKey r = k))).map Row.revenue).sum := rfl
    rw [List.map_cons, List.sum_cons, hcongr,
      ih (rows.filter (fun r => !(decide (rowKey r = k)))) hndK hrows2, hgr]
    linarith

/-- Each group revenue is nonnegative when every row revenue is. -/
theorem groupRevenue_nonneg (rows : List Row) (k : String × String)
    (hnn : ∀ r ∈ rows, 0 ≤ r.revenue) : 0 ≤ groupRevenue rows k := by
  refine List.sum_nonneg ?_
  intro x hx
  rcases List.mem_map.mp hx with ⟨r, hr, rfl⟩
  exact hnn r (List.mem_of_mem_filter hr)

/-- The entries of `dimension_totals` sum to the total revenue and are
each nonnegative and bounded by the total, when row revenues are
nonnegative. -/
theorem dimension_totals_facts (rows : List Row)
    (hnn : ∀ r ∈ rows, 0 ≤ r.revenue) :
    ((dimension_totals rows).map (fun kv => kv.2)).sum = (rows.map Row.revenue).sum
    ∧ (∀ kv ∈ dimension_totals rows,
        0 ≤ kv.2 ∧ kv.2 ≤ (rows.map Row.revenue).sum)
    ∧ (dimension_totals rows).length = (firstDedup (rows.map rowKey)).length := by
  have hperm : List.Perm (sortKeys (firstDedup (rows.map rowKey)))
      (firstDedup (rows.map rowKey)) := sortKeys_perm _
  have hsum : ((dimension_totals rows).map (fun kv => kv.2)).sum
      = (rows.map Row.revenue).sum := by
    rw [dimension_totals, List.map_map]
    have heq : ((sortKeys (firstDedup (rows.map rowKey))).map
        ((fun kv => kv.2) ∘ (fun k => (k, groupRevenue rows k)))).sum
        = ((sortKeys (firstDedup (rows.map rowKey))).map (groupRevenue rows)).sum := rfl
    rw [heq, (hperm.map (groupRevenue rows)).sum_eq]
    refine groupRevenue_partition _ rows (firstDedup_nodup _) ?_
    intro r hr
    exact firstDedup_complete _ _ (List.mem_map.mpr ⟨r, hr, rfl⟩)
  refine ⟨hsum, fun kv hkv => ?_, ?_⟩
  · rcases List.mem_map.mp hkv with ⟨k, _, rfl⟩
    refine ⟨groupRevenue_nonneg rows k hnn, ?_⟩
    have hmem2 : groupRevenue rows k ∈ (dimension_totals rows).map (fun kv => kv.2) := by
      refine List.mem_map.mpr ⟨(k, groupRevenue rows k), hkv, rfl⟩
    have hnn2 : ∀ x ∈ (dimension_totals rows).map (fun kv => kv.2), 0 ≤ x := by
      intro x hx
      rcases List.mem_map.mp hx with ⟨kv2, hkv2, rfl⟩
      rcases List.mem_map.mp hkv2 with ⟨k2, _, rfl⟩
      exact groupRevenue_nonneg rows k2 hnn
    have := List.single_le_sum hnn2 _ hmem2
    rw [hsum] at this
    exact this
  · rw [dimension_totals, List.length_map]
    exact hperm.length_eq

/-- C5 counterexample: with a negative-revenue row (a returns period) a
top-performer share exceeds 100 — at this concrete input the computed
list holds shares 200 and -100, so the claimed share bounds fail (the
length and ordering parts hold; it is the share range that is
violated). -/
theorem C5_counterexample :
    analyze_revenue ⟨"monthly", "revenue", some "product", 5, [], false, 12⟩
        ⟨true, [⟨"2024-01", 200, 1, 1, "A", "A"⟩, ⟨"2024-01", -100, 1, 1, "B", "B"⟩]⟩
      = Except.ok (Analysis.revenue
          { total_revenue := 100
            avg_daily_revenue := 50
            revenue_growth := -150
            top_performers := some
              [⟨"A", "A", 200, 200⟩, ⟨"B", "B", -100, -100⟩] })
    ∧ ¬ ((200 : ℚ) ≤ 100) ∧ ¬ ((0 : ℚ) ≤ -100) := by
  refine ⟨?_, by norm_num, by norm_num⟩
  have hk : keyLt ("B", "B") ("A", "A") = false := by decide
  simp +decide only [analyze_revenue, dimension_totals, groupRevenue, sortKeys,
    firstDedup, insertAscKey, hk, nlargest, sortDescVal, insertDescVal,
    calculate_growth, rowKey, List.filter_cons, List.filter_nil, List.map_cons,
    List.map_nil, List.foldl, List.take, List.sum_cons, List.sum_nil,
    List.length_cons, List.length_nil]
  norm_num

/-- C5 amended: under the spec precondition that the aggregated period
revenues are nonnegative (and hence the total is positive when nonzero),
the computed top-performers list has length at most `top_n` and at most
the number of distinct `(dimension_id, dimension_name)` values, every
entry is a grouped revenue total with `share = value / total × 100` in
`[0, 100]`, the shares sum to at most 100, and the list is descending by
summed revenue.  (Without the nonnegativity precondition the share
bounds fail, as the counterexample shows.) -/
theorem C5_top_performer_invariants (cfg : Config) (df : DataFrame)
    (pay : RevenuePayload) (l : List Performer)
    (hnn : ∀ r ∈ df.rows, 0 ≤ r.revenue)
    (hpos : 0 < (df.rows.map Row.revenue).sum)
    (hok : analyze_revenue cfg df = Except.ok (Analysis.revenue pay))
    (hl : pay.top_performers = some l) :
    l.length ≤ cfg.top_n
    ∧ l.length ≤ (firstDedup (df.rows.map rowKey)).length
    ∧ (∀ p ∈ l, ((p.id, p.name), p.value) ∈ dimension_totals df.rows
        ∧ p.share = p.value / (df.rows.map Row.revenue).sum * 100
        ∧ 0 ≤ p.share ∧ p.share ≤ 100)
    ∧ (l.map Performer.share).sum ≤ 100
    ∧ l.Pairwise (fun a b => b.value ≤ a.value) := by
  rw [analyze_revenue] at hok
  simp only [Except.ok.injEq, Analysis.revenue.injEq] at hok
  rw [← hok] at hl
  simp only at hl
  by_cases hcond : (cfg.dimension.isSome && df.hasDimCols) = true
  swap
  · rw [if_neg hcond] at hl
    exact absurd hl (by simp)
  rw [if_pos hcond] at hl
  obtain rfl : _ = l := Option.some_inj.mp hl
  obtain ⟨hsumG, hboundsG, hlenG⟩ := dimension_totals_facts df.rows hnn
  have hperm := sortDescVal_perm (dimension_totals df.rows)
  have hsorted := sortDescVal_sorted (dimension_totals df.rows)
  have hsub : List.Sublist
      ((sortDescVal (dimension_totals df.rows)).take cfg.top_n)
      (sortDescVal (dimension_totals df.rows)) := List.take_sublist _ _
  have hmemG : ∀ kv ∈ (sortDescVal (dimension_totals df.rows)).take cfg.top_n,
      kv ∈ dimension_totals df.rows :=
    fun kv hkv => hperm.mem_iff.mp (hsub.subset hkv)
  have hsumle : ((((sortDescVal (dimension_totals df.rows)).take cfg.top_n)).map
      (fun kv => kv.2)).sum ≤ (df.rows.map Row.revenue).sum := by
    have h1 := (hsub.map (fun kv => kv.2)).sum_le_sum ?_
    · have h4 : ((sortDescVal (dimension_totals df.rows)).map
          (fun kv => kv.2)).sum
          = ((dimension_totals df.rows).map (fun kv => kv.2)).sum :=
        (hperm.map _).sum_eq
      rw [h4, hsumG] at h1
      exact h1
    · intro x hx
      rcases List.mem_map.mp hx with ⟨kv, hkv, rfl⟩
      exact (hboundsG kv (hperm.mem_iff.mp hkv)).1
  refine ⟨?_, ?_, ?_, ?_, ?_⟩
  · rw [List.length_map, nlargest, List.length_take]
    exact min_le_left _ _
  · rw [List.length_map, nlargest, List.length_take, ← hlenG]
    exact (min_le_right _ _).trans (le_of_eq hperm.length_eq)
  · intro p hp
    rcases List.mem_map.mp hp with ⟨kv, hkv, rfl⟩
    have hkvG : kv ∈ dimension_totals df.rows := hmemG kv hkv
    have hv0 : 0 ≤ kv.2 := (hboundsG kv hkvG).1
    have hvT : kv.2 ≤ (df.rows.map Row.revenue).sum := (hboundsG kv hkvG).2
    refine ⟨by simpa using hkvG, rfl, ?_, ?_⟩
    · exact mul_nonneg (div_nonneg hv0 (le_of_lt hpos)) (by norm_num)
    · have hd1 : kv.2 / (df.rows.map Row.revenue).sum ≤ 1 :=
        (div_le_one hpos).mpr hvT
      have := mul_le_mul_of_nonneg_right hd1 (by norm_num : (0:ℚ) ≤ 100)
      simpa using this
  · rw [List.map_map]
    have e0 : (fun p => Performer.share p) ∘
        (fun kv : (String × String) × ℚ =>
          ({ id := kv.1.1, name := kv.1.2, value := kv.2,
             share := kv.2 / (df.rows.map Row.revenue).sum * 100 } : Performer))
        = fun kv : (String × String) × ℚ =>
            (kv.2 / (df.rows.map Row.revenue).sum) * 100 := rfl
    rw [e0, nlargest, List.sum_map_mul_right]
    have e2 : (((sortDescVal (dimension_totals df.rows)).take cfg.top_n).map
        (fun kv => kv.2 / (df.rows.map Row.revenue).sum)).sum
        = ((((sortDescVal (dimension_totals df.rows)).take cfg.top_n).map
            (fun kv => kv.2)).sum) * ((df.rows.map Row.revenue).sum)⁻¹ := by
      simp only [div_eq_mul_inv]
      exact List.sum_map_mul_right
        (List.take cfg.top_n (sortDescVal (dimension_totals df.rows)))
        (fun kv => kv.2) ((List.map Row.revenue df.rows).sum)⁻¹
    rw [e2]
    have hd1 : ((((sortDescVal (dimension_totals df.rows)).take cfg.top_n).map
        (fun kv => kv.2)).sum) * ((df.rows.map Row.revenue).sum)⁻¹ ≤ 1 := by
      rw [← div_eq_mul_inv]
      exact (div_le_one hpos).mpr hsumle
    have := mul_le_mul_of_nonneg_right hd1 (by norm_num : (0:ℚ) ≤ 100)
    simpa using this
  · refine List.pairwise_map.mpr ?_
    exact List.Pairwise.sublist hsub hsorted

/-- Witness for C5 amended at a concrete two-group frame with
nonnegative revenues. -/
theorem C5_top_performer_invariants_witness :
    ([⟨"B", "B", 300, 75⟩, ⟨"A", "A", 100, 25⟩] : List Performer).length ≤ 5
    ∧ (∀ p ∈ ([⟨"B", "B", 300, 75⟩, ⟨"A", "A", 100, 25⟩] : List Performer),
        0 ≤ p.share ∧ p.share ≤ 100)
    ∧ ((([⟨"B", "B", 300, 75⟩, ⟨"A", "A", 100, 25⟩] : List Performer).map
        Performer.share).sum ≤ 100) := by
  have h := C5_top_performer_invariants
    ⟨"monthly", "revenue", some "product", 5, [], false, 12⟩
    ⟨true, [⟨"2024-01", 100, 1, 1, "A", "A"⟩, ⟨"2024-02", 300, 1, 1, "B", "B"⟩]⟩
    ⟨400, 200, 200, some [⟨"B", "B", 300, 75⟩, ⟨"A", "A", 100, 25⟩]⟩
    [⟨"B", "B", 300, 75⟩, ⟨"A", "A", 100, 25⟩]
    ?hnn ?hpos ?hok rfl
  · exact ⟨h.1, fun p hp => ⟨(h.2.2.1 p hp).2.2.1, (h.2.2.1 p hp).2.2.2⟩,
      h.2.2.2.1⟩
  case hnn =>
    intro r hr
    fin_cases hr <;> norm_num
  case hpos => norm_num
  case hok =>
    have hk : keyLt ("B", "B") ("A", "A") = false := by decide
    simp +decide only [analyze_revenue, dimension_totals, groupRevenue, sortKeys,
      firstDedup, insertAscKey, hk, nlargest, sortDescVal, insertDescVal,
      calculate_growth, rowKey, List.filter_cons, List.filter_nil, List.map_cons,
      List.map_nil, List.foldl, List.take, List.sum_cons, List.sum_nil,
      List.length_cons, List.length_nil]
    norm_num
